import Mathlib

/-!
# Verification of the BLE periodic advertiser application (`src/main.c`)

Shallow embedding of the application code in `src/main.c`.  Each C function
that the specification talks about is translated into a Lean function that
returns the ordered trace of external calls and console lines it produces.
Return codes of the external NimBLE / Mynewt collaborators (the host stack,
the buffer pool, the OS primitives) are supplied by an `Env` record: one
field per call site, holding the status that call returns in the modelled
run.  A C `assert` that fails is modelled by ending the trace with an
`assertFail` event and marking the run aborted (the process halts there).

The abstract advertising-instance state machine of the specification
(`Unconfigured … ExtendedStarted`) is tracked alongside the trace: the
interpreter appends the next abstract state exactly when the corresponding
configuration call has returned success.
-/

namespace Blepadv

/-! ## Constants from the NimBLE and Mynewt headers used by `main.c` -/

/-- `BLE_OWN_ADDR_PUBLIC` (nimble/ble.h). -/
def BLE_OWN_ADDR_PUBLIC : Nat := 0

/-- `BLE_HCI_LE_PHY_1M` (nimble/hci_common.h). -/
def BLE_HCI_LE_PHY_1M : Nat := 1

/-- `BLE_HCI_MAX_ADV_DATA_LEN` (nimble/hci_common.h): the legacy
advertising-PDU payload limit, 31 bytes. -/
def BLE_HCI_MAX_ADV_DATA_LEN : Nat := 31

/-- `BLE_HS_ADV_F_DISC_GEN` (host/ble_hs_adv.h), value 0x02. -/
def BLE_HS_ADV_F_DISC_GEN : Nat := 2

/-- `BLE_HS_ADV_F_BREDR_UNSUP` (host/ble_hs_adv.h), value 0x04. -/
def BLE_HS_ADV_F_BREDR_UNSUP : Nat := 4

/-- `BLE_GAP_EVENT_ADV_COMPLETE` (host/ble_gap.h), value 9. -/
def BLE_GAP_EVENT_ADV_COMPLETE : Nat := 9

/-- `BLEPADV_MAIN_TASK_PRIO` (main.c line 38), 0xf0. -/
def BLEPADV_MAIN_TASK_PRIO : Nat := 240

/-- Mynewt `OS_OK`. -/
def OS_OK : Int := 0

/-- Mynewt `OS_TIMEOUT` (os/os_error.h). -/
def OS_TIMEOUT : Int := 6

/-! ## Data model -/

/-- `struct ble_gap_ext_adv_params` — the members `main.c` writes after the
`memset` (lines 64–73).  Members the code leaves zeroed keep their zero
value in `extAdvParamsZero`. -/
structure ble_gap_ext_adv_params where
  connectable : Bool
  scannable : Bool
  directed : Bool
  high_duty_directed : Bool
  legacy_pdu : Bool
  anonymous : Bool
  include_tx_power : Bool
  scan_req_notif : Bool
  itvl_min : Nat
  itvl_max : Nat
  channel_map : Nat
  own_addr_type : Nat
  primary_phy : Nat
  secondary_phy : Nat
  tx_power : Int
  sid : Nat
  deriving DecidableEq, Repr

/-- The all-zero value produced by `memset(&params, 0, sizeof(params))`. -/
def extAdvParamsZero : ble_gap_ext_adv_params :=
  { connectable := false, scannable := false, directed := false
    high_duty_directed := false, legacy_pdu := false, anonymous := false
    include_tx_power := false, scan_req_notif := false
    itvl_min := 0, itvl_max := 0, channel_map := 0, own_addr_type := 0
    primary_phy := 0, secondary_phy := 0, tx_power := 0, sid := 0 }

/-- `struct ble_gap_periodic_adv_params` — members written in `main.c`
lines 98–101 (the rest stays zero after the `memset`). -/
structure ble_gap_periodic_adv_params where
  include_tx_power : Bool
  itvl_min : Nat
  itvl_max : Nat
  deriving DecidableEq, Repr

/-- `struct ble_hs_adv_fields` — `main.c` zeroes the whole structure and
then sets only `flags` (lines 81–84); all other advertisement fields remain
at their zero/absent defaults and are represented by that fact. -/
structure ble_hs_adv_fields where
  flags : Nat
  deriving DecidableEq, Repr

/-- The abstract advertising-instance states of the specification (§3). -/
inductive AdvState where
  | Unconfigured
  | ExtendedConfigured
  | DataSet
  | PeriodicConfigured
  | PeriodicStarted
  | ExtendedStarted
  deriving DecidableEq, Repr

/-- Console lines emitted by `console_printf` calls in `main.c`, one
constructor per call site, carrying the formatted arguments. -/
inductive LogEntry where
  | helloAdvertiser
  | instanceStarted (inst : Nat)
  | advComplete (inst : Nat) (reason : Int)
  | eventNotHandled (ty : Nat)
  | resettingState (reason : Int)
  | mainTaskWelcome
  | enteringInfiniteLoop
  deriving DecidableEq, Repr

/-- Observable events of a run: each external call made by `main.c`, with
the arguments the code passes; a failed `assert`; entering the heartbeat
loop. -/
inductive Ev where
  | printf (l : LogEntry)
  | extAdvConfigure (inst : Nat) (params : ble_gap_ext_adv_params)
  | msysGetPkthdr (len : Nat) (userHdrLen : Nat)
  | advSetFieldsMbuf (fields : ble_hs_adv_fields)
  | extAdvSetData (inst : Nat)
  | periodicAdvConfigure (inst : Nat) (pparams : ble_gap_periodic_adv_params)
  | periodicAdvStart (inst : Nat)
  | extAdvStart (inst : Nat) (duration : Nat) (maxEvents : Nat)
  | semInit (tokens : Nat)
  | semPend (timeoutTicks : Nat)
  | semPost
  | ensureAddr (preferRandom : Nat)
  | taskInit (prio : Nat)
  | timeDelay (ms : Nat)
  | assertFail
  | enterHeartbeat
  deriving DecidableEq, Repr

/-- Return values the external collaborators give to each call site of
`main.c` in the modelled run. `msys_alloc_ok` is whether
`os_msys_get_pkthdr` returns a non-null mbuf. -/
structure Env where
  ext_adv_configure_rc : Int
  msys_alloc_ok : Bool
  adv_set_fields_rc : Int
  ext_adv_set_data_rc : Int
  periodic_adv_configure_rc : Int
  periodic_adv_start_rc : Int
  ext_adv_start_rc : Int
  sem_init_rc : Int
  ensure_addr_rc : Int
  task_init_rc : Int
  deriving DecidableEq, Repr

/-- Result of running a straight-line piece of the program: the trace of
events, whether an `assert` aborted the process, and the successive
abstract §3 states of advertising instance 0, in the order reached. -/
structure RunResult where
  trace : List Ev
  aborted : Bool
  states : List AdvState
  deriving DecidableEq, Repr

/-- Console output of a trace: the `printf` events, in order. -/
def logsOf (t : List Ev) : List LogEntry :=
  t.filterMap fun e => match e with
    | Ev.printf l => some l
    | _ => none

/-! ## The translated functions of `main.c` -/

/-- The extended-advertising parameters `blepadv_start_periodic` hard-codes
(main.c lines 64–73): zeroed, then public own address, 1600-tick interval
bounds, 1M primary and secondary PHY, tx power 0, sid 0. -/
def blepadvExtParams : ble_gap_ext_adv_params :=
  { extAdvParamsZero with
    own_addr_type := BLE_OWN_ADDR_PUBLIC
    itvl_min := 1600
    itvl_max := 1600
    primary_phy := BLE_HCI_LE_PHY_1M
    secondary_phy := BLE_HCI_LE_PHY_1M
    tx_power := 0
    sid := 0 }

/-- The advertising fields `blepadv_start_periodic` builds (lines 81–84):
only the flags field, General Discoverable | BR/EDR-unsupported. -/
def blepadvAdvFields : ble_hs_adv_fields :=
  { flags := BLE_HS_ADV_F_DISC_GEN ||| BLE_HS_ADV_F_BREDR_UNSUP }

/-- The periodic-advertising parameters hard-coded in lines 98–101:
zeroed, tx power not included, 80-tick interval bounds. -/
def blepadvPerParams : ble_gap_periodic_adv_params :=
  { include_tx_power := false, itvl_min := 80, itvl_max := 80 }

/-- `blepadv_start_periodic` (main.c lines 49–118).  Straight-line code:
each external call is recorded in the trace; `assert(rc == 0)` after a call
ends the run with `assertFail` when the environment makes that call fail;
the abstract state list grows by the §3 state each successful configuration
call establishes. -/
def blepadv_start_periodic (env : Env) : RunResult :=
  -- the C local `instance` (a Lean keyword, so named `inst` here)
  let inst : Nat := 0
  let t0 := [Ev.extAdvConfigure inst blepadvExtParams]
  if env.ext_adv_configure_rc = 0 then
    -- state ExtendedConfigured reached
    let t1 := t0 ++ [Ev.msysGetPkthdr BLE_HCI_MAX_ADV_DATA_LEN 0]
    if env.msys_alloc_ok then
      let t2 := t1 ++ [Ev.advSetFieldsMbuf blepadvAdvFields]
      if env.adv_set_fields_rc = 0 then
        let t3 := t2 ++ [Ev.extAdvSetData inst]
        if env.ext_adv_set_data_rc = 0 then
          -- state DataSet reached
          let t4 := t3 ++ [Ev.periodicAdvConfigure inst blepadvPerParams]
          if env.periodic_adv_configure_rc = 0 then
            -- state PeriodicConfigured reached
            let t5 := t4 ++ [Ev.periodicAdvStart inst]
            if env.periodic_adv_start_rc = 0 then
              -- state PeriodicStarted reached
              let t6 := t5 ++ [Ev.extAdvStart inst 0 0]
              if env.ext_adv_start_rc = 0 then
                -- state ExtendedStarted reached
                { trace := t6 ++ [Ev.printf (LogEntry.instanceStarted inst)]
                  aborted := false
                  states := [AdvState.Unconfigured, AdvState.ExtendedConfigured,
                             AdvState.DataSet, AdvState.PeriodicConfigured,
                             AdvState.PeriodicStarted, AdvState.ExtendedStarted] }
              else
                { trace := t6 ++ [Ev.assertFail], aborted := true
                  states := [AdvState.Unconfigured, AdvState.ExtendedConfigured,
                             AdvState.DataSet, AdvState.PeriodicConfigured,
                             AdvState.PeriodicStarted] }
            else
              { trace := t5 ++ [Ev.assertFail], aborted := true
                states := [AdvState.Unconfigured, AdvState.ExtendedConfigured,
                           AdvState.DataSet, AdvState.PeriodicConfigured] }
          else
            { trace := t4 ++ [Ev.assertFail], aborted := true
              states := [AdvState.Unconfigured, AdvState.ExtendedConfigured,
                         AdvState.DataSet] }
        else
          { trace := t3 ++ [Ev.assertFail], aborted := true
            states := [AdvState.Unconfigured, AdvState.ExtendedConfigured] }
      else
        { trace := t2 ++ [Ev.assertFail], aborted := true
          states := [AdvState.Unconfigured, AdvState.ExtendedConfigured] }
    else
      { trace := t1 ++ [Ev.assertFail], aborted := true
        states := [AdvState.Unconfigured, AdvState.ExtendedConfigured] }
  else
    { trace := t0 ++ [Ev.assertFail], aborted := true
      states := [AdvState.Unconfigured] }

/-- All configuration calls of `blepadv_start_periodic` succeed (every
status zero, the mbuf allocation non-null). -/
def configOk (env : Env) : Prop :=
  env.ext_adv_configure_rc = 0 ∧ env.msys_alloc_ok = true ∧
  env.adv_set_fields_rc = 0 ∧ env.ext_adv_set_data_rc = 0 ∧
  env.periodic_adv_configure_rc = 0 ∧ env.periodic_adv_start_rc = 0 ∧
  env.ext_adv_start_rc = 0

instance (env : Env) : Decidable (configOk env) := by
  unfold configOk; infer_instance

/-- The complete call trace of a fully successful `blepadv_start_periodic`
run. -/
def fullConfigTrace : List Ev :=
  [Ev.extAdvConfigure 0 blepadvExtParams,
   Ev.msysGetPkthdr BLE_HCI_MAX_ADV_DATA_LEN 0,
   Ev.advSetFieldsMbuf blepadvAdvFields,
   Ev.extAdvSetData 0,
   Ev.periodicAdvConfigure 0 blepadvPerParams,
   Ev.periodicAdvStart 0,
   Ev.extAdvStart 0 0 0,
   Ev.printf (LogEntry.instanceStarted 0)]

/-- The five-step abstraction of §4.1/C1: which of the five configuration
steps an event belongs to (the buffer allocation, field encoding and data
submission together form step 2, "build and submit advertising data"). -/
def stepIndex : Ev → Option Nat
  | Ev.extAdvConfigure _ _ => some 1
  | Ev.msysGetPkthdr _ _ => some 2
  | Ev.advSetFieldsMbuf _ => some 2
  | Ev.extAdvSetData _ => some 2
  | Ev.periodicAdvConfigure _ _ => some 3
  | Ev.periodicAdvStart _ => some 4
  | Ev.extAdvStart _ _ _ => some 5
  | _ => none

/-- `blepadv_gap_event` (main.c lines 120–133).  The C callback only reads
the event and prints; it holds no reference to the advertising instance.
This is made observable by threading an arbitrary state value `st` through
the call: the translation returns it untouched because the source contains
no write.  Result: (returned status, console lines, state after). -/
def blepadv_gap_event {σ : Type} (event_type : Nat)
    (adv_complete_instance : Nat) (adv_complete_reason : Int)
    (st : σ) : Int × List LogEntry × σ :=
  if event_type = BLE_GAP_EVENT_ADV_COMPLETE then
    (0, [LogEntry.advComplete adv_complete_instance adv_complete_reason], st)
  else
    (0, [LogEntry.eventNotHandled event_type], st)

/-- `blepadv_on_reset` (main.c lines 135–139): one `console_printf`, no
other statement.  State is threaded like in `blepadv_gap_event` to record
that nothing is mutated.  Result: (trace, state after). -/
def blepadv_on_reset {σ : Type} (reason : Int) (st : σ) : List Ev × σ :=
  ([Ev.printf (LogEntry.resettingState reason)], st)

/-- `blepadv_on_sync` (main.c lines 141–157): `ble_hs_util_ensure_addr(0)`
guarded by `assert(rc == 0)`, then `os_task_init` of the main task guarded
by `assert(rc == 0)`.  Result: (trace, aborted). -/
def blepadv_on_sync (env : Env) : List Ev × Bool :=
  let t0 := [Ev.ensureAddr 0]
  if env.ensure_addr_rc = 0 then
    let t1 := t0 ++ [Ev.taskInit BLEPADV_MAIN_TASK_PRIO]
    if env.task_init_rc = 0 then (t1, false)
    else (t1 ++ [Ev.assertFail], true)
  else (t0 ++ [Ev.assertFail], true)

/-- `blepadv_main_task_fn` (main.c lines 159–183), up to the point where
the task enters its non-terminating heartbeat loop (recorded as the final
`enterHeartbeat` event): welcome line, `os_sem_init(&sem, 0)` with assert,
`blepadv_start_periodic()`, `os_sem_pend(&sem, OS_TICKS_PER_SEC/2)`,
"Entering infinite loop" line, heartbeat loop.  `ticksPerSec` is the
board-configured `OS_TICKS_PER_SEC`.  Result: (trace, aborted). -/
def blepadv_main_task_fn (env : Env) (ticksPerSec : Nat) : List Ev × Bool :=
  let t0 := [Ev.printf LogEntry.mainTaskWelcome, Ev.semInit 0]
  if env.sem_init_rc = 0 then
    let r := blepadv_start_periodic env
    let t1 := t0 ++ r.trace
    if r.aborted then (t1, true)
    else
      (t1 ++ [Ev.semPend (ticksPerSec / 2),
              Ev.printf LogEntry.enteringInfiniteLoop,
              Ev.enterHeartbeat], false)
  else (t0 ++ [Ev.assertFail], true)

/-! ## Semaphore semantics (Mynewt `os_sem`)

`os_sem_init(&sem, 0)` gives the semaphore zero tokens.  `os_sem_pend`
with a finite timeout, on a semaphore that no task ever posts to, either
takes an available token immediately or blocks exactly until the timeout
elapses and returns `OS_TIMEOUT`. -/

structure os_sem where
  tokens : Nat
  deriving DecidableEq, Repr

/-- `os_sem_pend(sem, timeout)` under the premise that no other task posts
to `sem` while the caller waits.  Result: (status, semaphore after, ticks
the caller was blocked). -/
def os_sem_pend_noposts (s : os_sem) (timeoutTicks : Nat) :
    Int × os_sem × Nat :=
  if 0 < s.tokens then (OS_OK, ⟨s.tokens - 1⟩, 0)
  else (OS_TIMEOUT, s, timeoutTicks)

/-- Bool-level test for a `semPend` event (any timeout). -/
def isSemPendEv : Ev → Bool
  | Ev.semPend _ => true
  | _ => false

/-- Bool-level test for a configuration-call event (one of the five §4.1
steps). -/
def isConfigCallEv (e : Ev) : Bool := (stepIndex e).isSome

/-- Bool-level test for the event of entering the heartbeat loop. -/
def isHeartbeatEv : Ev → Bool
  | Ev.enterHeartbeat => true
  | _ => false

/-- A run environment in which every external call succeeds. -/
def envAllOk : Env :=
  { ext_adv_configure_rc := 0, msys_alloc_ok := true, adv_set_fields_rc := 0
    ext_adv_set_data_rc := 0, periodic_adv_configure_rc := 0
    periodic_adv_start_rc := 0, ext_adv_start_rc := 0, sem_init_rc := 0
    ensure_addr_rc := 0, task_init_rc := 0 }

end Blepadv

namespace Blepadv

/-! ## Helper lemmas about `blepadv_start_periodic` -/

/-- Every run's trace is either the full successful trace or a prefix of it
followed by the failed assertion. -/
lemma blepadv_trace_shape (env : Env) :
    (blepadv_start_periodic env).trace = fullConfigTrace ∨
    ∃ n, (blepadv_start_periodic env).trace
        = fullConfigTrace.take n ++ [Ev.assertFail] := by
  obtain ⟨r1, ok, r2, r3, r4, r5, r6, rs, ra, rt⟩ := env
  simp only [blepadv_start_periodic]
  split_ifs with h1 h2 h3 h4 h5 h6 h7
  · exact Or.inl rfl
  · exact Or.inr ⟨7, rfl⟩
  · exact Or.inr ⟨6, rfl⟩
  · exact Or.inr ⟨5, rfl⟩
  · exact Or.inr ⟨4, rfl⟩
  · exact Or.inr ⟨3, rfl⟩
  · exact Or.inr ⟨2, rfl⟩
  · exact Or.inr ⟨1, rfl⟩

/-- A fully successful environment produces the full trace, no abort, and
the complete §3 state sequence. -/
lemma blepadv_run_of_configOk (env : Env) (h : configOk env) :
    blepadv_start_periodic env =
      { trace := fullConfigTrace
        aborted := false
        states := [AdvState.Unconfigured, AdvState.ExtendedConfigured,
                   AdvState.DataSet, AdvState.PeriodicConfigured,
                   AdvState.PeriodicStarted, AdvState.ExtendedStarted] } := by
  obtain ⟨r1, ok, r2, r3, r4, r5, r6, rs, ra, rt⟩ := env
  unfold configOk at h
  dsimp only at h
  obtain ⟨h1, h2, h3, h4, h5, h6, h7⟩ := h
  subst h1; subst h2; subst h3; subst h4; subst h5; subst h6; subst h7
  rfl

/-- The run aborts exactly when some configuration call fails. -/
lemma blepadv_aborted_iff (env : Env) :
    (blepadv_start_periodic env).aborted = false ↔ configOk env := by
  obtain ⟨r1, ok, r2, r3, r4, r5, r6, rs, ra, rt⟩ := env
  simp only [blepadv_start_periodic, configOk]
  split_ifs with h1 h2 h3 h4 h5 h6 h7 <;> simp_all

/-- No run's trace repeats an event. -/
lemma blepadv_trace_nodup (env : Env) :
    (blepadv_start_periodic env).trace.Nodup := by
  have hfull : fullConfigTrace.Nodup := by decide
  rcases blepadv_trace_shape env with h | ⟨n, h⟩ <;> rw [h]
  · exact hfull
  · refine List.Nodup.append (hfull.sublist (List.take_sublist n _))
      (by decide) ?_
    intro e he hmem
    have : e ∈ fullConfigTrace := List.take_subset n _ he
    have hne : e = Ev.assertFail := by simpa using hmem
    subst hne
    exact (by decide : Ev.assertFail ∉ fullConfigTrace) this

/-- The configurator never posts to the semaphore. -/
lemma blepadv_no_sem_post (env : Env) :
    Ev.semPost ∉ (blepadv_start_periodic env).trace := by
  rcases blepadv_trace_shape env with h | ⟨n, h⟩ <;> rw [h]
  · decide
  · intro hmem
    rcases List.mem_append.mp hmem with hm | hm
    · exact (by decide : Ev.semPost ∉ fullConfigTrace) (List.take_subset n _ hm)
    · simp at hm

end Blepadv

namespace Blepadv

/-- A later configuration call appears in the trace only if the call before
it succeeded. -/
lemma blepadv_gating (env : Env) :
    (Ev.msysGetPkthdr BLE_HCI_MAX_ADV_DATA_LEN 0 ∈ (blepadv_start_periodic env).trace →
      env.ext_adv_configure_rc = 0) ∧
    (Ev.advSetFieldsMbuf blepadvAdvFields ∈ (blepadv_start_periodic env).trace →
      env.msys_alloc_ok = true) ∧
    (Ev.extAdvSetData 0 ∈ (blepadv_start_periodic env).trace →
      env.adv_set_fields_rc = 0) ∧
    (Ev.periodicAdvConfigure 0 blepadvPerParams ∈ (blepadv_start_periodic env).trace →
      env.ext_adv_set_data_rc = 0) ∧
    (Ev.periodicAdvStart 0 ∈ (blepadv_start_periodic env).trace →
      env.periodic_adv_configure_rc = 0) ∧
    (Ev.extAdvStart 0 0 0 ∈ (blepadv_start_periodic env).trace →
      env.periodic_adv_start_rc = 0) := by
  obtain ⟨r1, ok, r2, r3, r4, r5, r6, rs, ra, rt⟩ := env
  simp only [blepadv_start_periodic]
  split_ifs with h1 h2 h3 h4 h5 h6 h7 <;>
    refine ⟨fun hm => ?_, fun hm => ?_, fun hm => ?_, fun hm => ?_,
            fun hm => ?_, fun hm => ?_⟩ <;>
    first
      | assumption
      | rfl
      | (exfalso; revert hm; decide)

end Blepadv

namespace Blepadv

/-! ## Claim theorems -/

/-- C1: for every run in which all configuration calls succeed,
`blepadv_start_periodic` on instance 0 performs exactly the five §4.1 steps
in order — extended-advertising configuration; building and submitting the
advertising data; periodic-advertising configuration; periodic start;
extended start — never invoking a later step before the previous one has
succeeded (last five conjuncts, over every environment), and ends with the
instance in `ExtendedStarted`. -/
theorem blepadv_c1_five_steps_in_order (env : Env) (h : configOk env) :
    (blepadv_start_periodic env).trace = fullConfigTrace ∧
    (blepadv_start_periodic env).trace.filterMap stepIndex
      = [1, 2, 2, 2, 3, 4, 5] ∧
    ((blepadv_start_periodic env).trace.filterMap stepIndex).dedup
      = [1, 2, 3, 4, 5] ∧
    (blepadv_start_periodic env).states
      = [AdvState.Unconfigured, AdvState.ExtendedConfigured, AdvState.DataSet,
         AdvState.PeriodicConfigured, AdvState.PeriodicStarted,
         AdvState.ExtendedStarted] ∧
    (blepadv_start_periodic env).states.getLast? = some AdvState.ExtendedStarted ∧
    (blepadv_start_periodic env).aborted = false ∧
    (∀ e : Env, Ev.msysGetPkthdr BLE_HCI_MAX_ADV_DATA_LEN 0
        ∈ (blepadv_start_periodic e).trace → e.ext_adv_configure_rc = 0) ∧
    (∀ e : Env, Ev.extAdvSetData 0 ∈ (blepadv_start_periodic e).trace →
      e.adv_set_fields_rc = 0) ∧
    (∀ e : Env, Ev.periodicAdvConfigure 0 blepadvPerParams
        ∈ (blepadv_start_periodic e).trace → e.ext_adv_set_data_rc = 0) ∧
    (∀ e : Env, Ev.periodicAdvStart 0 ∈ (blepadv_start_periodic e).trace →
      e.periodic_adv_configure_rc = 0) ∧
    (∀ e : Env, Ev.extAdvStart 0 0 0 ∈ (blepadv_start_periodic e).trace →
      e.periodic_adv_start_rc = 0) := by
  rw [blepadv_run_of_configOk env h]
  exact ⟨rfl, by decide, by decide, rfl, rfl, rfl,
         fun e => (blepadv_gating e).1,
         fun e => (blepadv_gating e).2.2.1,
         fun e => (blepadv_gating e).2.2.2.1,
         fun e => (blepadv_gating e).2.2.2.2.1,
         fun e => (blepadv_gating e).2.2.2.2.2⟩

/-- Witness for C1 at the all-success environment. -/
theorem blepadv_c1_five_steps_in_order_witness :
    (blepadv_start_periodic envAllOk).trace = fullConfigTrace ∧
    (blepadv_start_periodic envAllOk).trace.filterMap stepIndex
      = [1, 2, 2, 2, 3, 4, 5] ∧
    ((blepadv_start_periodic envAllOk).trace.filterMap stepIndex).dedup
      = [1, 2, 3, 4, 5] ∧
    (blepadv_start_periodic envAllOk).states
      = [AdvState.Unconfigured, AdvState.ExtendedConfigured, AdvState.DataSet,
         AdvState.PeriodicConfigured, AdvState.PeriodicStarted,
         AdvState.ExtendedStarted] ∧
    (blepadv_start_periodic envAllOk).states.getLast?
      = some AdvState.ExtendedStarted ∧
    (blepadv_start_periodic envAllOk).aborted = false :=
  ⟨(blepadv_c1_five_steps_in_order envAllOk (by decide)).1,
   (blepadv_c1_five_steps_in_order envAllOk (by decide)).2.1,
   (blepadv_c1_five_steps_in_order envAllOk (by decide)).2.2.1,
   (blepadv_c1_five_steps_in_order envAllOk (by decide)).2.2.2.1,
   (blepadv_c1_five_steps_in_order envAllOk (by decide)).2.2.2.2.1,
   (blepadv_c1_five_steps_in_order envAllOk (by decide)).2.2.2.2.2.1⟩

/-- C3: `blepadv_gap_event` returns status 0 for every event type; it logs
the event for an advertising-complete event and logs the numeric type as
not handled for any other type; it never returns non-zero. -/
theorem blepadv_c3_gap_event_total {σ : Type} (event_type inst : Nat)
    (reason : Int) (st : σ) :
    (blepadv_gap_event event_type inst reason st).1 = 0 ∧
    (event_type = BLE_GAP_EVENT_ADV_COMPLETE →
      (blepadv_gap_event event_type inst reason st).2.1
        = [LogEntry.advComplete inst reason]) ∧
    (event_type ≠ BLE_GAP_EVENT_ADV_COMPLETE →
      (blepadv_gap_event event_type inst reason st).2.1
        = [LogEntry.eventNotHandled event_type]) := by
  unfold blepadv_gap_event
  by_cases h : event_type = BLE_GAP_EVENT_ADV_COMPLETE <;> simp [h]

/-- Witness for C3 at the unrecognized type code 99 (spec Scenario C). -/
theorem blepadv_c3_gap_event_total_witness :
    (blepadv_gap_event 99 0 0 AdvState.ExtendedStarted).1 = 0 ∧
    (blepadv_gap_event 99 0 0 AdvState.ExtendedStarted).2.1
      = [LogEntry.eventNotHandled 99] :=
  ⟨(blepadv_c3_gap_event_total 99 0 0 AdvState.ExtendedStarted).1,
   (blepadv_c3_gap_event_total 99 0 0 AdvState.ExtendedStarted).2.2 (by decide)⟩

/-- C6: an advertising-complete event makes `blepadv_gap_event` log exactly
the instance id and reason code carried by the event and return the handled
status 0, leaving any threaded instance state untouched (the source reads
only the event and writes nothing). -/
theorem blepadv_c6_adv_complete_frame {σ : Type} (event_type inst : Nat)
    (reason : Int) (st : σ) (h : event_type = BLE_GAP_EVENT_ADV_COMPLETE) :
    blepadv_gap_event event_type inst reason st
      = (0, [LogEntry.advComplete inst reason], st) := by
  subst h
  unfold blepadv_gap_event
  simp

/-- Witness for C6 at `AdvCompleteEvent{instanceId=0, reasonCode=13}`
delivered with the instance in `ExtendedStarted`. -/
theorem blepadv_c6_adv_complete_frame_witness :
    blepadv_gap_event 9 0 13 AdvState.ExtendedStarted
      = (0, [LogEntry.advComplete 0 13], AdvState.ExtendedStarted) :=
  blepadv_c6_adv_complete_frame 9 0 13 AdvState.ExtendedStarted (by decide)

/-- C9: `blepadv_on_reset` only logs the reason code: its trace is the one
console line, any threaded state comes back unchanged, and no event of the
trace is a configuration call (no re-configuration is triggered). -/
theorem blepadv_c9_reset_logs_only {σ : Type} (reason : Int) (st : σ) :
    (blepadv_on_reset reason st).1
      = [Ev.printf (LogEntry.resettingState reason)] ∧
    (blepadv_on_reset reason st).2 = st ∧
    (∀ e ∈ (blepadv_on_reset reason st).1, stepIndex e = none) ∧
    (∀ e ∈ (blepadv_on_reset reason st).1, isConfigCallEv e = false) := by
  refine ⟨rfl, rfl, ?_, ?_⟩ <;> intro e he <;>
  · simp only [blepadv_on_reset, List.mem_singleton] at he
    subst he
    rfl

/-- Witness for C9 at reason code 7 with a `Nat`-valued state. -/
theorem blepadv_c9_reset_logs_only_witness :
    (blepadv_on_reset 7 (0 : Nat)).1
      = [Ev.printf (LogEntry.resettingState 7)] ∧
    (blepadv_on_reset 7 (0 : Nat)).2 = 0 ∧
    stepIndex (Ev.printf (LogEntry.resettingState 7)) = none :=
  ⟨(blepadv_c9_reset_logs_only 7 (0 : Nat)).1,
   (blepadv_c9_reset_logs_only 7 (0 : Nat)).2.1,
   (blepadv_c9_reset_logs_only 7 (0 : Nat)).2.2.1 _ (by decide)⟩

end Blepadv

namespace Blepadv

/-- C4: `blepadv_on_sync` first calls `ble_hs_util_ensure_addr(0)`; when no
usable identity address can be established (non-zero status) the run aborts
fatally and the worker task is never created; the task-creation call
appears in the trace only when address resolution returned success, and on
full success the trace is exactly address resolution followed by task
creation. -/
theorem blepadv_c4_sync_addr_first (env : Env) :
    (blepadv_on_sync env).1.head? = some (Ev.ensureAddr 0) ∧
    (env.ensure_addr_rc ≠ 0 →
      (blepadv_on_sync env).2 = true ∧
      ∀ p, Ev.taskInit p ∉ (blepadv_on_sync env).1) ∧
    ((∃ p, Ev.taskInit p ∈ (blepadv_on_sync env).1) →
      env.ensure_addr_rc = 0) ∧
    (env.ensure_addr_rc = 0 → env.task_init_rc = 0 →
      (blepadv_on_sync env).1
        = [Ev.ensureAddr 0, Ev.taskInit BLEPADV_MAIN_TASK_PRIO] ∧
      (blepadv_on_sync env).2 = false) := by
  obtain ⟨r1, ok, r2, r3, r4, r5, r6, rs, ra, rt⟩ := env
  simp only [blepadv_on_sync]
  split_ifs with h1 h2
  · exact ⟨rfl, fun hne => absurd h1 hne, fun _ => h1,
           fun _ _ => ⟨rfl, rfl⟩⟩
  · exact ⟨rfl, fun hne => absurd h1 hne, fun _ => h1,
           fun _ h2' => absurd h2' h2⟩
  · refine ⟨rfl, fun _ => ⟨rfl, ?_⟩, ?_, fun h1' => absurd h1' h1⟩
    · intro p
      simp
    · rintro ⟨p, hm⟩
      simp at hm

/-- Witness for C4: with address resolution failing (status 1) the sync
handler aborts and never creates the task; with everything succeeding the
trace is address resolution then task creation. -/
theorem blepadv_c4_sync_addr_first_witness :
    ((blepadv_on_sync { envAllOk with ensure_addr_rc := 1 }).2 = true ∧
      ∀ p, Ev.taskInit p
        ∉ (blepadv_on_sync { envAllOk with ensure_addr_rc := 1 }).1) ∧
    (blepadv_on_sync envAllOk).1
      = [Ev.ensureAddr 0, Ev.taskInit BLEPADV_MAIN_TASK_PRIO] :=
  ⟨(blepadv_c4_sync_addr_first { envAllOk with ensure_addr_rc := 1 }).2.1
     (by decide),
   ((blepadv_c4_sync_addr_first envAllOk).2.2.2 (by decide) (by decide)).1⟩

/-- C5: in `blepadv_start_periodic` every non-zero configuration status
halts the run through the failed assertion (the run aborts exactly when
some call fails), under all-success no abort happens and all five steps
run to completion, and no call is ever retried (the trace never repeats an
event) — there is no partial-advertising fallback. -/
theorem blepadv_c5_fail_fast (env : Env) :
    ((blepadv_start_periodic env).aborted = false ↔ configOk env) ∧
    (configOk env →
      (blepadv_start_periodic env).trace = fullConfigTrace ∧
      (blepadv_start_periodic env).aborted = false) ∧
    (blepadv_start_periodic env).trace.Nodup := by
  refine ⟨blepadv_aborted_iff env, fun h => ?_, blepadv_trace_nodup env⟩
  rw [blepadv_run_of_configOk env h]
  exact ⟨rfl, rfl⟩

/-- Witness for C5: at an environment whose periodic-start call fails the
run aborts, at the all-success environment it does not, and both traces are
repetition-free. -/
theorem blepadv_c5_fail_fast_witness :
    (blepadv_start_periodic
        { envAllOk with periodic_adv_start_rc := 7 }).aborted = true ∧
    (blepadv_start_periodic envAllOk).trace = fullConfigTrace ∧
    (blepadv_start_periodic envAllOk).aborted = false ∧
    (blepadv_start_periodic envAllOk).trace.Nodup := by
  refine ⟨?_, ((blepadv_c5_fail_fast envAllOk).2.1 (by decide)).1,
          ((blepadv_c5_fail_fast envAllOk).2.1 (by decide)).2,
          (blepadv_c5_fail_fast envAllOk).2.2⟩
  have h := (blepadv_c5_fail_fast
      { envAllOk with periodic_adv_start_rc := 7 }).1
  rcases hab :
      (blepadv_start_periodic
        { envAllOk with periodic_adv_start_rc := 7 }).aborted with _ | _
  · exact absurd (by decide : ¬ configOk
      { envAllOk with periodic_adv_start_rc := 7 }) (fun hn => hn (h.mp hab))
  · rfl

/-- C7: with the hard-coded parameter set — instance 0, primary interval
bounds (1600, 1600), public own-address type, both PHYs 1M, periodic
interval bounds (80, 80), tx power excluded from the periodic payload —
and every call succeeding, the final state is `ExtendedStarted` and exactly
one confirmation line naming instance 0 is printed. -/
theorem blepadv_c7_scenario_a (env : Env) (h : configOk env) :
    (blepadv_start_periodic env).states.getLast?
      = some AdvState.ExtendedStarted ∧
    logsOf (blepadv_start_periodic env).trace
      = [LogEntry.instanceStarted 0] ∧
    (logsOf (blepadv_start_periodic env).trace).count
      (LogEntry.instanceStarted 0) = 1 ∧
    Ev.extAdvConfigure 0 blepadvExtParams ∈ (blepadv_start_periodic env).trace ∧
    Ev.periodicAdvConfigure 0 blepadvPerParams
      ∈ (blepadv_start_periodic env).trace ∧
    blepadvExtParams.own_addr_type = BLE_OWN_ADDR_PUBLIC ∧
    blepadvExtParams.itvl_min = 1600 ∧
    blepadvExtParams.itvl_max = 1600 ∧
    blepadvExtParams.primary_phy = BLE_HCI_LE_PHY_1M ∧
    blepadvExtParams.secondary_phy = BLE_HCI_LE_PHY_1M ∧
    blepadvPerParams.itvl_min = 80 ∧
    blepadvPerParams.itvl_max = 80 ∧
    blepadvPerParams.include_tx_power = false := by
  rw [blepadv_run_of_configOk env h]
  exact ⟨rfl, by decide, by decide, by decide, by decide, rfl, rfl, rfl,
         rfl, rfl, rfl, rfl, rfl⟩

/-- Witness for C7 at the all-success environment. -/
theorem blepadv_c7_scenario_a_witness :
    (blepadv_start_periodic envAllOk).states.getLast?
      = some AdvState.ExtendedStarted ∧
    logsOf (blepadv_start_periodic envAllOk).trace
      = [LogEntry.instanceStarted 0] ∧
    (logsOf (blepadv_start_periodic envAllOk).trace).count
      (LogEntry.instanceStarted 0) = 1 :=
  ⟨(blepadv_c7_scenario_a envAllOk (by decide)).1,
   (blepadv_c7_scenario_a envAllOk (by decide)).2.1,
   (blepadv_c7_scenario_a envAllOk (by decide)).2.2.1⟩

/-- C10: after a successful extended-advertising configuration the very
next call allocates the advertising-data buffer with the legacy PDU limit
(31 bytes); a null buffer halts the run through the failed assertion; and
any run that proceeds past the allocation (the field-encoding call appears
in the trace) had a non-null buffer. -/
theorem blepadv_c10_buffer_alloc (env : Env) :
    (env.ext_adv_configure_rc = 0 →
      (blepadv_start_periodic env).trace.take 2
        = [Ev.extAdvConfigure 0 blepadvExtParams,
           Ev.msysGetPkthdr BLE_HCI_MAX_ADV_DATA_LEN 0]) ∧
    (env.ext_adv_configure_rc = 0 → env.msys_alloc_ok = false →
      (blepadv_start_periodic env).aborted = true ∧
      (blepadv_start_periodic env).trace
        = [Ev.extAdvConfigure 0 blepadvExtParams,
           Ev.msysGetPkthdr BLE_HCI_MAX_ADV_DATA_LEN 0, Ev.assertFail]) ∧
    (Ev.advSetFieldsMbuf blepadvAdvFields ∈ (blepadv_start_periodic env).trace →
      env.msys_alloc_ok = true) ∧
    BLE_HCI_MAX_ADV_DATA_LEN = 31 := by
  refine ⟨?_, ?_, (blepadv_gating env).2.1, rfl⟩
  · obtain ⟨r1, ok, r2, r3, r4, r5, r6, rs, ra, rt⟩ := env
    intro h1
    dsimp only at h1
    subst h1
    simp only [blepadv_start_periodic]
    split_ifs <;> rfl
  · obtain ⟨r1, ok, r2, r3, r4, r5, r6, rs, ra, rt⟩ := env
    intro h1 h2
    dsimp only at h1 h2
    subst h1
    subst h2
    exact ⟨rfl, rfl⟩

/-- Witness for C10 at the environment whose buffer allocation fails. -/
theorem blepadv_c10_buffer_alloc_witness :
    (blepadv_start_periodic { envAllOk with msys_alloc_ok := false }).aborted
      = true ∧
    (blepadv_start_periodic { envAllOk with msys_alloc_ok := false }).trace
      = [Ev.extAdvConfigure 0 blepadvExtParams,
         Ev.msysGetPkthdr BLE_HCI_MAX_ADV_DATA_LEN 0, Ev.assertFail] :=
  (blepadv_c10_buffer_alloc { envAllOk with msys_alloc_ok := false }).2.1
    (by decide) (by decide)

end Blepadv

namespace Blepadv

/-- With the semaphore initialization and every configuration call
succeeding, the worker task's trace is: welcome line, zero-token semaphore
initialization, the full configuration trace, the bounded semaphore wait,
the loop-entry line, and the heartbeat loop. -/
lemma blepadv_task_trace_of_ok (env : Env) (ticksPerSec : Nat)
    (hs : env.sem_init_rc = 0) (hc : configOk env) :
    blepadv_main_task_fn env ticksPerSec
      = ([Ev.printf LogEntry.mainTaskWelcome, Ev.semInit 0] ++ fullConfigTrace
          ++ [Ev.semPend (ticksPerSec / 2),
              Ev.printf LogEntry.enteringInfiniteLoop, Ev.enterHeartbeat],
         false) := by
  unfold blepadv_main_task_fn
  rw [hs, blepadv_run_of_configOk env hc]
  rfl

/-- C2 counterexample: in the all-success run the worker task's semaphore
wait does NOT precede the start of configuration — both occur, and the
first configuration call comes strictly before the wait (`main.c` calls
`blepadv_start_periodic()` at line 171 and `os_sem_pend` only at line
174), refuting the claimed order at a concrete input. -/
theorem blepadv_c2_counterexample :
    (blepadv_main_task_fn envAllOk 128).1.any isSemPendEv = true ∧
    (blepadv_main_task_fn envAllOk 128).1.any isConfigCallEv = true ∧
    ¬ ((blepadv_main_task_fn envAllOk 128).1.findIdx isSemPendEv <
       (blepadv_main_task_fn envAllOk 128).1.findIdx isConfigCallEv) := by
  decide

/-- C2 (amended): the worker task, once spawned, first initializes the
readiness semaphore with zero tokens, then invokes the advertising
configurator, then waits up to a bounded timeout on the semaphore, and
only then enters the infinite heartbeat loop; configuration precedes the
semaphore wait. -/
theorem blepadv_c2_task_order_amended (env : Env) (ticksPerSec : Nat)
    (hs : env.sem_init_rc = 0) (hc : configOk env) :
    (blepadv_main_task_fn env ticksPerSec).1
      = [Ev.printf LogEntry.mainTaskWelcome, Ev.semInit 0] ++ fullConfigTrace
        ++ [Ev.semPend (ticksPerSec / 2),
            Ev.printf LogEntry.enteringInfiniteLoop, Ev.enterHeartbeat] ∧
    (blepadv_main_task_fn env ticksPerSec).2 = false ∧
    (blepadv_main_task_fn env ticksPerSec).1.findIdx isConfigCallEv <
      (blepadv_main_task_fn env ticksPerSec).1.findIdx isSemPendEv ∧
    (blepadv_main_task_fn env ticksPerSec).1.findIdx isSemPendEv <
      (blepadv_main_task_fn env ticksPerSec).1.findIdx isHeartbeatEv := by
  rw [blepadv_task_trace_of_ok env ticksPerSec hs hc]
  refine ⟨rfl, rfl, ?_, ?_⟩
  · show (2 : Nat) < 10
    decide
  · show (10 : Nat) < 12
    decide

/-- Witness for the amended C2 at the all-success environment with a
128-tick second. -/
theorem blepadv_c2_task_order_amended_witness :
    (blepadv_main_task_fn envAllOk 128).1
      = [Ev.printf LogEntry.mainTaskWelcome, Ev.semInit 0] ++ fullConfigTrace
        ++ [Ev.semPend 64, Ev.printf LogEntry.enteringInfiniteLoop,
            Ev.enterHeartbeat] ∧
    (blepadv_main_task_fn envAllOk 128).2 = false ∧
    (blepadv_main_task_fn envAllOk 128).1.findIdx isConfigCallEv <
      (blepadv_main_task_fn envAllOk 128).1.findIdx isSemPendEv :=
  ⟨(blepadv_c2_task_order_amended envAllOk 128 (by decide) (by decide)).1,
   (blepadv_c2_task_order_amended envAllOk 128 (by decide) (by decide)).2.1,
   (blepadv_c2_task_order_amended envAllOk 128 (by decide) (by decide)).2.2.1⟩

/-- C8: the worker task's bounded semaphore wait always elapses.  The
task's trace begins with the zero-token semaphore initialization; no
function of the program ever posts to the semaphore (no trace contains a
post event); a pend on a zero-token semaphore nobody posts to returns
`OS_TIMEOUT` after exactly its finite timeout (`OS_TICKS_PER_SEC/2`
ticks), never blocking indefinitely; and the wait sits strictly before the
heartbeat loop. -/
theorem blepadv_c8_sem_wait_elapses (env : Env) (ticksPerSec : Nat) :
    (∃ rest, (blepadv_main_task_fn env ticksPerSec).1
        = Ev.printf LogEntry.mainTaskWelcome :: Ev.semInit 0 :: rest) ∧
    Ev.semPost ∉ (blepadv_main_task_fn env ticksPerSec).1 ∧
    Ev.semPost ∉ (blepadv_start_periodic env).trace ∧
    Ev.semPost ∉ (blepadv_on_sync env).1 ∧
    (∀ r : Int, ∀ s : Nat, Ev.semPost ∉ (blepadv_on_reset r s).1) ∧
    os_sem_pend_noposts ⟨0⟩ (ticksPerSec / 2)
      = (OS_TIMEOUT, ⟨0⟩, ticksPerSec / 2) ∧
    (env.sem_init_rc = 0 → configOk env →
      (blepadv_main_task_fn env ticksPerSec).1.findIdx isSemPendEv <
        (blepadv_main_task_fn env ticksPerSec).1.findIdx isHeartbeatEv) := by
  refine ⟨?_, ?_, blepadv_no_sem_post env, ?_, ?_, rfl, ?_⟩
  · unfold blepadv_main_task_fn
    dsimp only
    split_ifs <;> exact ⟨_, rfl⟩
  · unfold blepadv_main_task_fn
    dsimp only
    split_ifs <;> simp [blepadv_no_sem_post env]
  · unfold blepadv_on_sync
    split_ifs <;> simp
  · intro r s
    simp [blepadv_on_reset]
  · intro hs hc
    rw [blepadv_task_trace_of_ok env ticksPerSec hs hc]
    show (10 : Nat) < 12
    decide

/-- Witness for C8 at the all-success environment with a 128-tick second:
the wait elapses after 64 ticks with `OS_TIMEOUT` and precedes the
heartbeat loop. -/
theorem blepadv_c8_sem_wait_elapses_witness :
    Ev.semPost ∉ (blepadv_main_task_fn envAllOk 128).1 ∧
    os_sem_pend_noposts ⟨0⟩ 64 = (OS_TIMEOUT, ⟨0⟩, 64) ∧
    (blepadv_main_task_fn envAllOk 128).1.findIdx isSemPendEv <
      (blepadv_main_task_fn envAllOk 128).1.findIdx isHeartbeatEv :=
  ⟨(blepadv_c8_sem_wait_elapses envAllOk 128).2.1,
   (blepadv_c8_sem_wait_elapses envAllOk 128).2.2.2.2.2.1,
   (blepadv_c8_sem_wait_elapses envAllOk 128).2.2.2.2.2.2 (by decide)
     (by decide)⟩

end Blepadv
